import Mathlib

/-!
Verification of the otelnet terminal client (C sources under `src/`).

The development shallowly embeds the byte-level protocol machinery of the
client: the Kermit binary-mode escape codec (`src/kermit_client.c`), the
engine's I/O callbacks (`otelnet_kermit_rxd`, `otelnet_kermit_readf`,
`otelnet_kermit_closef`), the retry discipline of the Kermit protocol
loops (`kermit_client_send` / `kermit_client_receive`), the telnet option
negotiator and framer (`src/telnet.c`), the transfer supervisor's
negotiation drain (`src/otelnet.c`), and the ZMODEM/XMODEM/YMODEM
protocol detectors (`src/transfer.c`).

Bytes are modelled as `Nat` (values 0..255 in practice); C buffers become
`List Nat`; functions that mutate state become pure functions returning
the new state; C `int` return values that can be negative become `Int`.
-/

namespace Otelnet

/-! ## Protocol constants (src/include/telnet.h) -/

def TELNET_IAC : Nat := 255
def TELNET_DONT : Nat := 254
def TELNET_DO : Nat := 253
def TELNET_WONT : Nat := 252
def TELNET_WILL : Nat := 251
def TELNET_SB : Nat := 250
def TELNET_GA : Nat := 249
def TELNET_EL : Nat := 248
def TELNET_EC : Nat := 247
def TELNET_AYT : Nat := 246
def TELNET_AO : Nat := 245
def TELNET_IP : Nat := 244
def TELNET_BREAK : Nat := 243
def TELNET_DM : Nat := 242
def TELNET_NOP : Nat := 241
def TELNET_SE : Nat := 240
def TELNET_EOR : Nat := 239

def TELOPT_BINARY : Nat := 0
def TELOPT_ECHO : Nat := 1
def TELOPT_SGA : Nat := 3
def TELOPT_TTYPE : Nat := 24
def TELOPT_NAWS : Nat := 31
def TELOPT_TSPEED : Nat := 32
def TELOPT_LINEMODE : Nat := 34
def TELOPT_ENVIRON : Nat := 36

/-- Kermit start-of-header byte (ekermit `SOH`). -/
def SOH : Nat := 1

/-- Kermit standard packet length (ekermit `P_PKTLEN`, 94 bytes). -/
def P_PKTLEN : Nat := 94

/-- Result codes from src/include/telnet.h. -/
def SUCCESS : Int := 0
def ERROR_GENERAL : Int := -1
def ERROR_TIMEOUT : Int := -4
def ERROR_CONNECTION : Int := -5

/-! ## Binary-mode escape codec (src/kermit_client.c:322-375)

`binary_mode_unescape` scans the raw socket bytes during a Kermit
transfer.  A doubled IAC decodes to a single 0xFF data byte; the three
byte sequences IAC WILL/WONT/DO/DONT BINARY are silently skipped; any
other IAC-command pair makes the function return the `(size_t)-1`
sentinel (the peer has left BINARY mode); a lone IAC at the end of the
chunk is passed through unchanged.  The function returns 0 when the
output buffer would overflow. -/

/-- Return value of `binary_mode_unescape`: `ok out` is a normal byte
count (`out.length`), `overflow` is the C function's `return 0` on a full
output buffer, `telnetCmd` is the `(size_t)-1` sentinel for a telnet
command detected mid-transfer. -/
inductive UnescapeResult where
  | ok (out : List Nat)
  | overflow
  | telnetCmd
  deriving DecidableEq, Repr

/-- Scanning loop of `binary_mode_unescape` (src/kermit_client.c:327-372)
with the already-produced output accumulated in `out`. -/
def bmUnescapeAux (outputSize : Nat) : List Nat → List Nat → UnescapeResult
  | out, [] => .ok out
  | out, b :: rest =>
    if b = TELNET_IAC then
      match rest with
      | [] =>
        -- IAC at end of buffer: incomplete, pass through (line 354-362)
        if out.length + 1 > outputSize then .overflow else .ok (out ++ [TELNET_IAC])
      | c :: rest2 =>
        if c = TELNET_IAC then
          -- doubled IAC decodes to one 0xFF (line 330-337)
          if out.length + 1 > outputSize then .overflow
          else bmUnescapeAux outputSize (out ++ [TELNET_IAC]) rest2
        else if c = TELNET_WILL ∨ c = TELNET_DO ∨ c = TELNET_WONT ∨ c = TELNET_DONT then
          match rest2 with
          | d :: rest3 =>
            -- IAC cmd BINARY: silently skip all three bytes (line 338-346)
            if d = TELOPT_BINARY then bmUnescapeAux outputSize out rest3
            else .telnetCmd
          | [] => .telnetCmd
        else
          -- other IAC command: peer left BINARY mode (line 347-353)
          .telnetCmd
    else
      -- pass through all other bytes unchanged (line 363-371)
      if out.length + 1 > outputSize then .overflow
      else bmUnescapeAux outputSize (out ++ [b]) rest

/-- `binary_mode_unescape(input, input_len, output, output_size)`. -/
def binary_mode_unescape (input : List Nat) (outputSize : Nat) : UnescapeResult :=
  bmUnescapeAux outputSize [] input

example : binary_mode_unescape [97, 255, 255, 98] 188 = .ok [97, 255, 98] := by decide
example : binary_mode_unescape [97, 255, 244] 188 = .telnetCmd := by decide
example : binary_mode_unescape [97, 255, 251, 0, 98] 188 = .ok [97, 98] := by decide
example : binary_mode_unescape [97, 255] 188 = .ok [97, 255] := by decide

/-! ## The engine's receive callback `otelnet_kermit_rxd`
(src/kermit_client.c:390-676)

The callback first serves the pending-bytes queue filled by the
supervisor's negotiation drain; only when that queue is empty does it
read the socket.  Socket data is run through `binary_mode_unescape`,
then a leading SOH and a single trailing EOM (CR or LF) are stripped.
A return of `-1` is fatal, `0` is a timeout/retry, a positive value is
the delivered byte count. -/

/-- Result of one `otelnet_kermit_rxd` invocation: the C return value,
the bytes placed in the engine's buffer, and the pending queue left
behind. -/
structure RxdResult where
  ret : Int
  data : List Nat
  pending : List Nat
  deriving DecidableEq, Repr

/-- Pending-queue branch of `otelnet_kermit_rxd`
(src/kermit_client.c:401-468).  `len` is the engine's buffer length
argument.  The LEN-field sanity check (lines 419-444) clears the whole
queue and returns 0 on an invalid LEN; the SEQ/TYPE checks only log. -/
def rxdPendingBranch (pending : List Nat) (len : Nat) : RxdResult :=
  let copyLen := min pending.length len
  let buf := pending.take copyLen
  -- defensive SOH strip (lines 409-415)
  let stripped := copyLen > 0 ∧ buf.headD 0 = SOH
  let buf2 := if copyLen > 0 ∧ buf.headD 0 = SOH then buf.tail else buf
  let copyLen2 := if stripped then copyLen - 1 else copyLen
  if 4 ≤ copyLen2 ∧ (buf2.headD 0 < 35 ∨ 126 < buf2.headD 0) then
    -- invalid LEN: discard the whole pending queue, return 0 (lines 425-444)
    ⟨0, [], []⟩
  else
    -- shift out the consumed bytes (lines 455-464)
    let pending' := if copyLen2 < pending.length then pending.drop copyLen2 else []
    ⟨(copyLen2 : Int), buf2, pending'⟩

/-- Removal of a leading SOH from the decoded packet
(src/kermit_client.c:596-613). -/
def stripLeadingSOH (d : List Nat) : List Nat :=
  if d ≠ [] ∧ d.headD 0 = SOH then d.tail else d

/-- Removal of a single trailing EOM byte, CR or LF, from the decoded
packet (src/kermit_client.c:620-628). -/
def stripTrailingEOM (d : List Nat) : List Nat :=
  if d ≠ [] ∧ (d.getLastD 0 = 13 ∨ d.getLastD 0 = 10) then d.dropLast else d

/-- Socket branch of `otelnet_kermit_rxd` after a successful
`read` of `raw` (nonempty) into the 188-byte `raw_buf`
(src/kermit_client.c:552-676).  Returns `none` for the fatal `-1`
cases, otherwise the bytes handed to the engine. -/
def rxdSocketBranch (raw : List Nat) (len : Nat) : Option (List Nat) :=
  match binary_mode_unescape raw (2 * P_PKTLEN) with
  | .telnetCmd => none      -- server exited BINARY mode (lines 563-567)
  | .overflow => none       -- decoded_len == 0 with nread > 0 (lines 568-571)
  | .ok decoded =>
    if decoded = [] ∧ raw ≠ [] then none   -- same check, genuinely empty output
    else
      let d2 := stripTrailingEOM (stripLeadingSOH decoded)
      -- packet must fit the engine's P_PKTLEN+8 slot (lines 636-640)
      if (len : Int) + 8 < (d2.length : Int) then none else some d2

/-- `otelnet_kermit_rxd` as a function of the pending queue and the
bytes a socket read would deliver (`socketRaw`); the timeout/EOF/error
branches of the real `select`/`read` are not in scope here, only the
data path. -/
def otelnet_kermit_rxd (pending : List Nat) (socketRaw : List Nat) (len : Nat) : RxdResult :=
  if pending.length > 0 then
    rxdPendingBranch pending len
  else
    match rxdSocketBranch socketRaw len with
    | none => ⟨-1, [], pending⟩
    | some d => ⟨(d.length : Int), d, pending⟩

example : otelnet_kermit_rxd [] [1, 35, 32, 89, 35, 13] 94 = ⟨4, [35, 32, 89, 35], []⟩ := by
  decide
example : otelnet_kermit_rxd [35, 32, 89, 35, 13] [] 94 = ⟨5, [35, 32, 89, 35, 13], []⟩ := by
  decide
example : otelnet_kermit_rxd [] [97, 255, 244] 94 = ⟨-1, [], []⟩ := by decide

/-! ## The engine's file-read callback `otelnet_kermit_readf`
(src/kermit_client.c:887-966)

The ekermit `gnc()` macro consumes the engine's file buffer
destructively (`*zinptr++`, `zincnt--`), so the callback must reset
`zinptr` to the base of `zinbuf` before every `fread`, return `-1` at
EOF (never 0), and on success return the first byte while leaving
`zinptr` one past it and `zincnt` one below the fill count. -/

/-- The slice of `struct k_data` the readf callback touches: the file
input buffer, its capacity `zinlen`, the read cursor `zinptr`
(modelled as an offset from the buffer base) and the remaining count
`zincnt`. -/
structure KFileBuf where
  zinbuf : List Nat
  zinlen : Nat
  zinptr : Nat
  zincnt : Int
  deriving DecidableEq, Repr

/-- Result of one `otelnet_kermit_readf` call: the C return value, the
updated buffer state, and the file bytes still unread afterwards. -/
structure ReadfResult where
  ret : Int
  k : KFileBuf
  fileLeft : List Nat
  deriving DecidableEq, Repr

/-- `otelnet_kermit_readf` with `file = none` for "no file open" and
`some f` for an open file whose unread bytes are `f`. -/
def otelnet_kermit_readf (k : KFileBuf) (file : Option (List Nat)) : ReadfResult :=
  match file with
  | none => ⟨-1, k, []⟩                       -- no file open (lines 890-894)
  | some f =>
    -- reset zinptr to the buffer base, then fread up to zinlen (lines 907-910)
    let nread := min k.zinlen f.length
    let buf := f.take nread
    let rest := f.drop nread
    if nread = 0 then
      -- EOF: return -1, NOT 0 (lines 922-936)
      ⟨-1, { zinbuf := buf, zinlen := k.zinlen, zinptr := 0, zincnt := 0 }, rest⟩
    else
      -- return first byte, advance zinptr, decrement zincnt (lines 951-965)
      ⟨(buf.headD 0 : Int),
       { zinbuf := buf, zinlen := k.zinlen, zinptr := 1, zincnt := (nread : Int) - 1 },
       rest⟩

example :
    otelnet_kermit_readf ⟨[9, 9], 2, 7, 0⟩ (some [65, 66, 67]) =
      ⟨65, ⟨[65, 66], 2, 1, 1⟩, [67]⟩ := by decide
example : otelnet_kermit_readf ⟨[9], 2, 1, 0⟩ (some []) = ⟨-1, ⟨[], 2, 0, 0⟩, []⟩ := by decide

/-! ## The engine's file-close callback `otelnet_kermit_closef`
(src/kermit_client.c:1009-1042)

A partially-received file is unlinked only when `discard == 2`
(receive-side close), the session is receiving, the close status is
`'D'` (interrupted in mid-data), `k->ikeep` is 0, and a filename was
recorded; `'B'` (EOT) and `'Z'` (EOF) closes never delete. -/

/-- The context slice `otelnet_kermit_closef` reads: whether a file is
open, whether this session is the sending side, and the recorded
filename (empty list = `current_filename[0] == '\0'`). -/
structure ClosefCtx where
  fileOpen : Bool
  isSending : Bool
  currentFilename : List Nat
  deriving DecidableEq, Repr

/-- Result of `otelnet_kermit_closef`: the (always 0) return value and
whether the received file was unlinked. -/
structure ClosefResult where
  ret : Int
  deleted : Bool
  deriving DecidableEq, Repr

/-- `otelnet_kermit_closef(k, status, discard)` with `ikeep` taken from
`k->ikeep`.  `status` is the byte ekermit passes (`'D'` = 68, `'B'` =
66, `'Z'` = 90). -/
def otelnet_kermit_closef (ctx : ClosefCtx) (ikeep : Nat) (status : Nat)
    (discard : Int) : ClosefResult :=
  if ¬ctx.fileOpen then ⟨0, false⟩            -- nothing to close (lines 1012-1014)
  else
    -- delete incomplete file only in this exact case (line 1029)
    ⟨0, discard = 2 ∧ ¬ctx.isSending ∧ status = 68 ∧ ikeep = 0 ∧
        ctx.currentFilename ≠ []⟩

example : (otelnet_kermit_closef ⟨true, false, [97]⟩ 0 68 2).deleted = true := by decide
example : (otelnet_kermit_closef ⟨true, false, [97]⟩ 1 68 2).deleted = false := by decide
example : (otelnet_kermit_closef ⟨true, false, [97]⟩ 0 66 2).deleted = false := by decide

/-! ## Retry discipline of the Kermit protocol loops
(src/kermit_client.c:1363-1499 for `kermit_client_send`,
src/kermit_client.c:1677-1858 for `kermit_client_receive`)

Both loops keep two counters in the client context:
`consecutive_timeouts` (cap `max_consecutive_timeouts = 5`) and
`consecutive_naks` (cap `max_consecutive_naks = 10`).  One loop
iteration reads a packet via `rxd` and either aborts, continues with
updated counters, or finishes.  The step function below is the exact
counter/abort logic of one iteration; the identical code appears in
both loops. -/

/-- The retry counters of `kermit_client_ctx_t`. -/
structure RetryCtx where
  consecutiveNaks : Nat
  consecutiveTimeouts : Nat
  deriving DecidableEq, Repr

/-- What one loop iteration observes: a fatal `rxd` result (`< 0`), a
timeout (`rxd` returned 0), or a processed packet.  For a packet,
`nakOut` is the condition `opktlen >= 5 && opktbuf[3] == 'N'` (the
engine's outgoing packet is a NAK) and `okProgress` is
`status == X_OK && r.sofar > 0` (a successful data exchange). -/
inductive LoopEvent where
  | fatal
  | timeout
  | pkt (nakOut : Bool) (okProgress : Bool)
  deriving DecidableEq, Repr

/-- Outcome of one iteration: abort the transfer with a client error
code, or continue looping with new counters. -/
inductive LoopStep where
  | abort (code : Int)
  | cont (c : RetryCtx)
  deriving DecidableEq, Repr

/-- One iteration of the send/receive protocol loop, restricted to the
rxd-outcome handling and the retry counters
(src/kermit_client.c:1386-1450 and 1705-1804). -/
def kermitLoopStep (c : RetryCtx) : LoopEvent → LoopStep
  | .fatal => .abort ERROR_CONNECTION          -- lines 1388-1395
  | .timeout =>
    -- lines 1396-1409: increment, abort at the cap
    let t := c.consecutiveTimeouts + 1
    if 5 ≤ t then .abort ERROR_TIMEOUT
    else .cont ⟨c.consecutiveNaks, t⟩
  | .pkt nakOut okProgress =>
    if nakOut then
      -- lines 1416-1445: increment, abort at the cap
      let n := c.consecutiveNaks + 1
      if 10 ≤ n then .abort ERROR_GENERAL
      else .cont ⟨n, c.consecutiveTimeouts⟩
    else if okProgress then
      -- lines 1446-1450: reset both counters on successful data transfer
      .cont ⟨0, 0⟩
    else
      .cont c

example : kermitLoopStep ⟨9, 0⟩ (.pkt true false) = .abort ERROR_GENERAL := by decide
example : kermitLoopStep ⟨3, 4⟩ .timeout = .abort ERROR_TIMEOUT := by decide
example : kermitLoopStep ⟨7, 3⟩ (.pkt false true) = .cont ⟨0, 0⟩ := by decide

/-! ## Telnet option negotiator and framer (src/telnet.c)

The `telnet_t` structure is embedded with option arrays represented as
lists of enabled option codes.  Wire output produced by
`telnet_send_negotiate` / `telnet_send_subnegotiation` is collected in
a byte list. -/

/-- `telnet_state_t` (src/include/telnet.h:115-125). -/
inductive TelnetParseState where
  | data | iac | will | wont | doCmd | dont | sb | sbIac | seencr
  deriving DecidableEq, Repr

/-- The protocol-relevant slice of `telnet_t`. -/
structure TelnetState where
  state : TelnetParseState
  sbBuf : List Nat
  localOptions : List Nat
  remoteOptions : List Nat
  binaryLocal : Bool
  binaryRemote : Bool
  echoLocal : Bool
  echoRemote : Bool
  sgaLocal : Bool
  sgaRemote : Bool
  linemodeActive : Bool
  linemodeEdit : Bool
  binaryMode : Bool
  echoMode : Bool
  sgaMode : Bool
  linemode : Bool
  termWidth : Nat
  termHeight : Nat
  deriving DecidableEq, Repr

/-- Setting `local_options[o] = true` / `remote_options[o] = true` on the
list representation. -/
def insertOpt (o : Nat) (l : List Nat) : List Nat := if o ∈ l then l else o :: l

/-- Setting the option bit back to false. -/
def removeOpt (o : Nat) (l : List Nat) : List Nat := l.erase o

/-- `telnet_init` (src/telnet.c:10-44): parse state DATA, local BINARY
and SGA marked supported, everything else off, line mode on, 80×24. -/
def telnet_init : TelnetState where
  state := .data
  sbBuf := []
  localOptions := [TELOPT_BINARY, TELOPT_SGA]
  remoteOptions := []
  binaryLocal := false
  binaryRemote := false
  echoLocal := false
  echoRemote := false
  sgaLocal := false
  sgaRemote := false
  linemodeActive := false
  linemodeEdit := false
  binaryMode := false
  echoMode := false
  sgaMode := false
  linemode := true
  termWidth := 80
  termHeight := 24

/-- `telnet_update_mode` (src/telnet.c:220-253): recompute the derived
mode flags after any option change. -/
def telnet_update_mode (tn : TelnetState) : TelnetState :=
  { tn with
    binaryMode := tn.binaryLocal || tn.binaryRemote
    sgaMode := tn.sgaLocal || tn.sgaRemote
    echoMode := tn.echoRemote
    linemode :=
      if tn.linemodeActive then tn.linemodeEdit
      else if tn.echoRemote && tn.sgaRemote then false
      else true }

/-- Wire bytes of `telnet_send_negotiate(tn, command, option)`
(src/telnet.c:193-215). -/
def telnet_send_negotiate (command opt : Nat) : List Nat :=
  [TELNET_IAC, command, opt]

/-- IAC doubling performed by `telnet_send_subnegotiation`
(src/telnet.c:400-408). -/
def escapeIACBytes : List Nat → List Nat
  | [] => []
  | b :: rest =>
    if b = TELNET_IAC then TELNET_IAC :: TELNET_IAC :: escapeIACBytes rest
    else b :: escapeIACBytes rest

/-- Wire bytes of `telnet_send_subnegotiation` (src/telnet.c:387-423):
`IAC SB <escaped data> IAC SE`. -/
def telnet_send_subnegotiation (data : List Nat) : List Nat :=
  [TELNET_IAC, TELNET_SB] ++ escapeIACBytes data ++ [TELNET_IAC, TELNET_SE]

/-- Wire bytes of `telnet_send_naws` (src/telnet.c:431-460): NAWS
subnegotiation with 16-bit big-endian width and height. -/
def telnet_send_naws (width height : Nat) : List Nat :=
  telnet_send_subnegotiation
    [TELOPT_NAWS, width / 256, width % 256, height / 256, height % 256]

/-- Remote options the client accepts with WILL (src/telnet.c:269). -/
def supportedRemoteOption (o : Nat) : Prop :=
  o = TELOPT_BINARY ∨ o = TELOPT_SGA ∨ o = TELOPT_ECHO

instance (o : Nat) : Decidable (supportedRemoteOption o) := by
  unfold supportedRemoteOption; infer_instance

/-- Local options the client accepts with DO (src/telnet.c:316-319). -/
def supportedLocalOption (o : Nat) : Prop :=
  o = TELOPT_BINARY ∨ o = TELOPT_SGA ∨ o = TELOPT_TTYPE ∨ o = TELOPT_NAWS ∨
    o = TELOPT_TSPEED ∨ o = TELOPT_ENVIRON ∨ o = TELOPT_LINEMODE

instance (o : Nat) : Decidable (supportedLocalOption o) := by
  unfold supportedLocalOption; infer_instance

/-- `telnet_handle_negotiate` (src/telnet.c:258-382).  Returns the new
state and the wire bytes sent in reply (negotiation triples, plus the
initial NAWS report when DO NAWS is first accepted). -/
def telnet_handle_negotiate (tn : TelnetState) (command opt : Nat) :
    TelnetState × List Nat :=
  if command = TELNET_WILL then
    if supportedRemoteOption opt then
      if opt ∉ tn.remoteOptions then
        let tn1 :=
          { tn with
            remoteOptions := insertOpt opt tn.remoteOptions
            binaryRemote := if opt = TELOPT_BINARY then true else tn.binaryRemote
            sgaRemote := if opt = TELOPT_SGA then true else tn.sgaRemote
            echoRemote := if opt = TELOPT_ECHO then true else tn.echoRemote }
        (telnet_update_mode tn1, telnet_send_negotiate TELNET_DO opt)
      else (telnet_update_mode tn, [])
    else (telnet_update_mode tn, telnet_send_negotiate TELNET_DONT opt)
  else if command = TELNET_WONT then
    if opt ∈ tn.remoteOptions then
      let tn1 :=
        { tn with
          remoteOptions := removeOpt opt tn.remoteOptions
          binaryRemote := if opt = TELOPT_BINARY then false else tn.binaryRemote
          sgaRemote := if opt = TELOPT_SGA then false else tn.sgaRemote
          echoRemote := if opt = TELOPT_ECHO then false else tn.echoRemote
          linemodeActive := if opt = TELOPT_LINEMODE then false else tn.linemodeActive }
      (telnet_update_mode tn1, telnet_send_negotiate TELNET_DONT opt)
    else (telnet_update_mode tn, [])
  else if command = TELNET_DO then
    if supportedLocalOption opt then
      if opt ∉ tn.localOptions then
        let tn1 :=
          { tn with
            localOptions := insertOpt opt tn.localOptions
            binaryLocal := if opt = TELOPT_BINARY then true else tn.binaryLocal
            sgaLocal := if opt = TELOPT_SGA then true else tn.sgaLocal
            linemodeActive := if opt = TELOPT_LINEMODE then true else tn.linemodeActive }
        let wire := telnet_send_negotiate TELNET_WILL opt ++
          (if opt = TELOPT_NAWS then telnet_send_naws tn.termWidth tn.termHeight else [])
        (telnet_update_mode tn1, wire)
      else (telnet_update_mode tn, [])
    else (telnet_update_mode tn, telnet_send_negotiate TELNET_WONT opt)
  else if command = TELNET_DONT then
    if opt ∈ tn.localOptions then
      let tn1 :=
        { tn with
          localOptions := removeOpt opt tn.localOptions
          binaryLocal := if opt = TELOPT_BINARY then false else tn.binaryLocal
          sgaLocal := if opt = TELOPT_SGA then false else tn.sgaLocal
          linemodeActive := if opt = TELOPT_LINEMODE then false else tn.linemodeActive }
      (telnet_update_mode tn1, telnet_send_negotiate TELNET_WONT opt)
    else (telnet_update_mode tn, [])
  else
    (tn, [])

example :
    (telnet_handle_negotiate telnet_init TELNET_WILL TELOPT_ECHO).2 = [255, 253, 1] := by
  decide
example :
    (telnet_handle_negotiate
      (telnet_handle_negotiate telnet_init TELNET_WILL TELOPT_ECHO).1
      TELNET_WILL TELOPT_ECHO).2 = [] := by
  decide

/-! ### The framer `telnet_process_input` (src/telnet.c:617-827)

One byte drives the parse-state machine.  Clean data bytes go to the
bounded output buffer; negotiation bytes are handed to
`telnet_handle_negotiate`; completed subnegotiation payloads are handed
to `telnet_handle_subnegotiation`.  Those two hand-offs, and the AYT
auto-reply, are recorded as events in the trace below (the
subnegotiation handler's replies are outside the claims considered
here). -/

/-- Control events delivered by the framer. -/
inductive TelnetEvent where
  /-- a call `telnet_handle_negotiate(tn, cmd, opt)` -/
  | negotiate (cmd opt : Nat)
  /-- a call `telnet_handle_subnegotiation(tn)` with the scratch payload -/
  | subneg (payload : List Nat)
  /-- the AYT confirmation reply (src/telnet.c:679-684) -/
  | aytReply
  deriving DecidableEq, Repr

/-- Accumulated result of running the framer: the updated `telnet_t`,
the clean output bytes (bounded by the caller's buffer), the event
trace, and the wire bytes sent back by the negotiator. -/
structure FramerRun where
  tn : TelnetState
  out : List Nat
  events : List TelnetEvent
  wire : List Nat
  deriving DecidableEq, Repr

/-- `sizeof(tn->sb_buffer)` (src/include/telnet.h: `BUFFER_SIZE` 4096). -/
def SB_BUFFER_SIZE : Nat := 4096

/-- Append a clean byte, dropping it when the output buffer is full
(the `out_pos < output_size` checks throughout src/telnet.c:628-818). -/
def emitByte (outputSize : Nat) (out : List Nat) (c : Nat) : List Nat :=
  if out.length < outputSize then out ++ [c] else out

/-- IAC-state dispatch (src/telnet.c:653-718). -/
def telnetIacStep (outputSize : Nat) (st : FramerRun) (c : Nat) : FramerRun :=
  if c = TELNET_IAC then
    { st with tn := { st.tn with state := .data }
              out := emitByte outputSize st.out TELNET_IAC }
  else if c = TELNET_WILL then { st with tn := { st.tn with state := .will } }
  else if c = TELNET_WONT then { st with tn := { st.tn with state := .wont } }
  else if c = TELNET_DO then { st with tn := { st.tn with state := .doCmd } }
  else if c = TELNET_DONT then { st with tn := { st.tn with state := .dont } }
  else if c = TELNET_SB then
    { st with tn := { st.tn with state := .sb, sbBuf := [] } }
  else if c = TELNET_AYT then
    { st with tn := { st.tn with state := .data }
              events := st.events ++ [.aytReply] }
  else
    -- GA/NOP/IP/AO/BREAK/EL/EC/DM/EOR and unknown commands: log only
    { st with tn := { st.tn with state := .data } }

/-- Negotiation-byte dispatch shared by the WILL/WONT/DO/DONT states
(src/telnet.c:720-738). -/
def telnetNegotiateStep (st : FramerRun) (cmd c : Nat) : FramerRun :=
  let (tn1, w) := telnet_handle_negotiate st.tn cmd c
  { st with tn := { tn1 with state := .data }
            events := st.events ++ [.negotiate cmd c]
            wire := st.wire ++ w }

/-- One byte through `telnet_process_input`'s `switch (tn->state)`
(src/telnet.c:628-818). -/
def telnet_process_byte (outputSize : Nat) (st : FramerRun) (c : Nat) : FramerRun :=
  match st.tn.state with
  | .data =>
    if c = TELNET_IAC then { st with tn := { st.tn with state := .iac } }
    else if c = 13 ∧ ¬st.tn.binaryRemote then
      { st with tn := { st.tn with state := .seencr } }
    else { st with out := emitByte outputSize st.out c }
  | .iac => telnetIacStep outputSize st c
  | .will => telnetNegotiateStep st TELNET_WILL c
  | .wont => telnetNegotiateStep st TELNET_WONT c
  | .doCmd => telnetNegotiateStep st TELNET_DO c
  | .dont => telnetNegotiateStep st TELNET_DONT c
  | .sb =>
    if c = TELNET_IAC then { st with tn := { st.tn with state := .sbIac } }
    else if st.tn.sbBuf.length < SB_BUFFER_SIZE then
      { st with tn := { st.tn with sbBuf := st.tn.sbBuf ++ [c] } }
    else st
  | .sbIac =>
    if c = TELNET_SE then
      { st with tn := { st.tn with sbBuf := [], state := .data }
                events := st.events ++ [.subneg st.tn.sbBuf] }
    else if c = TELNET_IAC then
      { st with tn :=
          { st.tn with
            sbBuf := if st.tn.sbBuf.length < SB_BUFFER_SIZE then
                st.tn.sbBuf ++ [TELNET_IAC] else st.tn.sbBuf
            state := .sb } }
    else
      { st with tn :=
          { st.tn with
            sbBuf := if st.tn.sbBuf.length < SB_BUFFER_SIZE then
                st.tn.sbBuf ++ [c] else st.tn.sbBuf
            state := .sb } }
  | .seencr =>
    -- src/telnet.c:772-811
    if c = 0 then
      { st with tn := { st.tn with state := .data }
                out := emitByte outputSize st.out 13 }
    else if c = 10 then
      { st with tn := { st.tn with state := .data }
                out :=
                  if st.out.length + 1 < outputSize then st.out ++ [13, 10]
                  else if st.out.length < outputSize then st.out ++ [13]
                  else st.out }
    else if c = TELNET_IAC then
      -- emit CR and continue with IAC processing (break before state=DATA)
      { st with tn := { st.tn with state := .iac }
                out := emitByte outputSize st.out 13 }
    else
      -- CR followed by any other byte: emit CR, then emit the byte itself
      { st with tn := { st.tn with state := .data }
                out := emitByte outputSize (emitByte outputSize st.out 13) c }

/-- `telnet_process_input(tn, input, input_len, output, output_size,
&output_len)`. -/
def telnet_process_input (tn : TelnetState) (input : List Nat) (outputSize : Nat) :
    FramerRun :=
  input.foldl (telnet_process_byte outputSize) ⟨tn, [], [], []⟩

example :
    (telnet_process_input telnet_init [97, 13, 0, 98] 4096).out = [97, 13, 98] := by decide
example :
    (telnet_process_input telnet_init [97, 13, 10, 98] 4096).out = [97, 13, 10, 98] := by
  decide
example :
    (telnet_process_input telnet_init [97, 13, 255, 251, 3] 4096).events =
      [.negotiate TELNET_WILL TELOPT_SGA] := by decide

/-- SEENCR semantics as claim C3 words it: `SEENCR` on a byte other
than NUL/LF/IAC emits CR and then *reprocesses the byte as if it had
arrived in the DATA state*.  Identical to `telnet_process_byte` in
every other case. -/
def telnet_process_byte_crReprocess (outputSize : Nat) (st : FramerRun) (c : Nat) :
    FramerRun :=
  match st.tn.state with
  | .seencr =>
    if c = 0 ∨ c = 10 ∨ c = TELNET_IAC then telnet_process_byte outputSize st c
    else
      -- emit CR, then handle `c` by the DATA-state rules
      let st1 := { st with tn := { st.tn with state := .data }
                           out := emitByte outputSize st.out 13 }
      telnet_process_byte outputSize st1 c
  | _ => telnet_process_byte outputSize st c

/-- The framer as claim C3 describes it. -/
def telnet_process_input_crReprocess (tn : TelnetState) (input : List Nat)
    (outputSize : Nat) : FramerRun :=
  input.foldl (telnet_process_byte_crReprocess outputSize) ⟨tn, [], [], []⟩

/-! ## The transfer supervisor's negotiation drain
(src/otelnet.c:837-959)

Before dispatching a transfer the supervisor drains the socket for
`drain_count` iterations of a 100 ms `select` (3 iterations when BINARY
still has to be negotiated, 2 when already bidirectional BINARY).  Each
chunk read is passed through the framer; nonempty clean data is either
recognised as an early Kermit packet — saved to the pending-bytes queue
and the drain stops — or discarded as server chatter. -/

/-- `sizeof(ctx->pending_data)` (src/include/otelnet.h:129, `BUFFER_SIZE`). -/
def PENDING_DATA_SIZE : Nat := 4096

/-- The early-Kermit-packet test of the drain loop
(src/otelnet.c:888-914): a leading SOH, or at least 4 bytes with
LEN ∈ [35,126] and printable SEQ and TYPE. -/
def drain_is_kermit_packet (proc : List Nat) : Bool :=
  if proc.headD 0 = SOH then true
  else if 4 ≤ proc.length ∧
      (35 ≤ proc.headD 0 ∧ proc.headD 0 ≤ 126) ∧
      (32 ≤ proc.getD 1 0 ∧ proc.getD 1 0 ≤ 126) ∧
      (32 ≤ proc.getD 2 0 ∧ proc.getD 2 0 ≤ 126) then true
  else false

/-- Handling of one drained chunk's clean data
(src/otelnet.c:887-955).  Returns the new pending queue and whether the
drain loop `break`s. -/
def drainStep (pending : List Nat) (clean : List Nat) : List Nat × Bool :=
  if clean.length = 0 then (pending, false)
  else if drain_is_kermit_packet clean then
    (if pending.length + clean.length ≤ PENDING_DATA_SIZE then pending ++ clean
     else pending,    -- overflow: the bytes are lost, but the drain still stops
     true)
  else (pending, false)   -- server chatter: discard, keep draining

/-- The `while (drain_count > 0)` loop (src/otelnet.c:864-959) over the
per-iteration clean chunks the framer produced (`[]` for an iteration
whose `select` saw no data). -/
def drainLoop : Nat → List Nat → List (List Nat) → List Nat
  | 0, pending, _ => pending
  | _ + 1, pending, [] => pending
  | n + 1, pending, clean :: rest =>
    let (p, stop) := drainStep pending clean
    if stop then p else drainLoop n p rest

/-- `drain_count` initialisation (src/otelnet.c:855 and 862). -/
def drain_count_init (alreadyBinary : Bool) : Nat :=
  if alreadyBinary then 2 else 3

/-- Total drain budget in milliseconds: each iteration waits in a
100 ms `select` (src/otelnet.c:870). -/
def drainBudgetMs (alreadyBinary : Bool) : Nat :=
  100 * drain_count_init alreadyBinary

example : drainLoop 3 [] [[104, 105], [1, 38, 32, 83], [7]] = [1, 38, 32, 83] := by decide
example : drainLoop 3 [] [[104, 105], [104, 105], [104, 105]] = [] := by decide

/-! ## Protocol detectors and their state across transfers
(src/transfer.c:350-377, 1403-1438, 1576-1609; src/kermit_client.c:
1135-1148, 1519-1532, 242-251; src/otelnet.c:964-1037, 2250-2326) -/

/-- `zmodem_detector_t`: 32-byte sliding window plus enable flag. -/
structure ZmodemDetector where
  enabled : Bool
  buffer : List Nat
  deriving DecidableEq, Repr

/-- `zmodem_detector_init` (src/transfer.c:353-362). -/
def zmodem_detector_init : ZmodemDetector := ⟨true, []⟩

/-- `zmodem_detector_set_enabled` (src/transfer.c:367-377): disabling
also clears the window. -/
def zmodem_detector_set_enabled (d : ZmodemDetector) (enabled : Bool) : ZmodemDetector :=
  { enabled := enabled, buffer := if enabled then d.buffer else [] }

/-- `xmodem_detector_t`: 64-byte text window, last trigger char, repeat
count and first/last timestamps. -/
structure XmodemDetector where
  enabled : Bool
  buffer : List Nat
  lastChar : Nat
  repeatCount : Nat
  firstSeen : Nat
  lastSeen : Nat
  deriving DecidableEq, Repr

/-- `xmodem_detector_init` (src/transfer.c:1406-1419). -/
def xmodem_detector_init : XmodemDetector := ⟨true, [], 0, 0, 0, 0⟩

/-- `xmodem_detector_set_enabled` (src/transfer.c:1424-1438): disabling
clears the trigger counters and timestamps but leaves the text window
`buffer` untouched. -/
def xmodem_detector_set_enabled (d : XmodemDetector) (enabled : Bool) : XmodemDetector :=
  if enabled then { d with enabled := true }
  else { d with enabled := false, lastChar := 0, repeatCount := 0,
                firstSeen := 0, lastSeen := 0 }

/-- `ymodem_detector_t`: 64-byte text window, 'C' repeat count and
first/last timestamps. -/
structure YmodemDetector where
  enabled : Bool
  buffer : List Nat
  cRepeatCount : Nat
  firstSeen : Nat
  lastSeen : Nat
  deriving DecidableEq, Repr

/-- `ymodem_detector_init` (src/transfer.c:1579-1591). -/
def ymodem_detector_init : YmodemDetector := ⟨true, [], 0, 0, 0⟩

/-- `ymodem_detector_set_enabled` (src/transfer.c:1596-1609): disabling
clears the counters and timestamps but leaves the text window. -/
def ymodem_detector_set_enabled (d : YmodemDetector) (enabled : Bool) : YmodemDetector :=
  if enabled then { d with enabled := true }
  else { d with enabled := false, cRepeatCount := 0, firstSeen := 0, lastSeen := 0 }

/-- The three detector instances owned by the connection. -/
structure Detectors where
  z : ZmodemDetector
  x : XmodemDetector
  y : YmodemDetector
  deriving DecidableEq, Repr

/-- `transfer_protocol_t` values dispatched by
`otelnet_execute_transfer` (src/otelnet.c:973-1009). -/
inductive TransferProtocol where
  | kermitSend | kermitRecv
  | zmodemSend | zmodemRecv
  | xmodemSend | xmodemRecv
  | ymodemSend | ymodemRecv
  deriving DecidableEq, Repr

/-- Detector mutation performed at the entry of `kermit_client_send`
and `kermit_client_receive` (src/kermit_client.c:1141-1143 and
1525-1527): all three are disabled. -/
def kermitEntryDetectors (d : Detectors) : Detectors where
  z := zmodem_detector_set_enabled d.z false
  x := xmodem_detector_set_enabled d.x false
  y := ymodem_detector_set_enabled d.y false

/-- Detector state while the dispatched transfer is running
(src/otelnet.c:973-1009): the Kermit paths disable the detectors on
entry; `transfer_execute_modem` (the external ZMODEM/XMODEM/YMODEM
relay, src/transfer.c) never touches them. -/
def detectorsDuringTransfer (d : Detectors) (p : TransferProtocol) : Detectors :=
  match p with
  | .kermitSend | .kermitRecv => kermitEntryDetectors d
  | _ => d

/-- Detector state after the supervisor's exit path re-initialises all
three (src/otelnet.c:1034-1037). -/
def detectorsAfterTransfer : Detectors :=
  ⟨zmodem_detector_init, xmodem_detector_init, ymodem_detector_init⟩

/-- Application modes (src/include/otelnet.h `otelnet_mode_t`). -/
inductive OtelnetMode where
  | client | console | transfer
  deriving DecidableEq, Repr

/-- The guard under which `otelnet_process_telnet` consults a protocol
detector (src/otelnet.c:2256-2258, 2280-2282, 2304-2306): auto-detect
configured on, application mode CLIENT, and no transfer active. -/
def autoDetectGate (autoEnabled : Bool) (mode : OtelnetMode) (transferActive : Bool) :
    Bool :=
  autoEnabled && (match mode with | .client => true | _ => false) && !transferActive

/-! ## Helper lemmas -/

/-- `binary_mode_unescape` passes a block of non-IAC bytes straight to
the output when there is room, continuing the scan behind it. -/
theorem bmUnescapeAux_passthrough (outputSize : Nat) (l : List Nat) :
    ∀ (out : List Nat), (∀ b ∈ l, b ≠ TELNET_IAC) →
      out.length + l.length ≤ outputSize → ∀ s,
      bmUnescapeAux outputSize out (l ++ s) = bmUnescapeAux outputSize (out ++ l) s := by
  induction l with
  | nil => intro out _ _ s; simp
  | cons a t ih =>
    intro out hfree hroom s
    have ha : a ≠ TELNET_IAC := hfree a (List.mem_cons_self a t)
    have hlen : ¬(out.length + 1 > outputSize) := by
      simp only [List.length_cons] at hroom; omega
    have step : bmUnescapeAux outputSize out ((a :: t) ++ s) =
        bmUnescapeAux outputSize (out ++ [a]) (t ++ s) := by
      rw [List.cons_append, bmUnescapeAux.eq_def]
      simp [ha, hlen]
    rw [step, ih (out ++ [a])
      (fun b hb => hfree b (List.mem_cons_of_mem a hb))
      (by simp only [List.length_append, List.length_cons,
            List.length_nil] at hroom ⊢; omega)]
    simp

theorem insertOpt_mem (o : Nat) (l : List Nat) : o ∈ insertOpt o l := by
  unfold insertOpt; split
  · assumption
  · exact List.mem_cons_self o l

theorem telnet_update_mode_remoteOptions (tn : TelnetState) :
    (telnet_update_mode tn).remoteOptions = tn.remoteOptions := rfl

theorem telnet_update_mode_localOptions (tn : TelnetState) :
    (telnet_update_mode tn).localOptions = tn.localOptions := rfl

/-! ## Claim theorems -/

/-- C5: the engine's `readf` callback resets the file-buffer read
pointer to the buffer base before every fill (the fill lands at the
base of `zinbuf` and the outcome is independent of the incoming
`zinptr`); at end of file it returns -1, never 0; and on a successful
fill it returns the first byte of the buffer, leaves `zinptr` one past
that byte, and leaves `zincnt` one below the number of buffered
bytes. -/
theorem readf_contract (k : KFileBuf) (f : List Nat)
    (hf : f ≠ []) (hlen : 0 < k.zinlen) :
    -- at EOF the return value is -1 (and in particular not 0)
    (otelnet_kermit_readf k (some [])).ret = -1 ∧
    (otelnet_kermit_readf k (some [])).ret ≠ 0 ∧
    -- the fill is insensitive to the incoming read pointer: it always
    -- lands at the buffer base
    (∀ p q, otelnet_kermit_readf { k with zinptr := p } (some f) =
            otelnet_kermit_readf { k with zinptr := q } (some f)) ∧
    -- a successful fill returns the first byte, advances the pointer
    -- past it, and decrements the count
    (otelnet_kermit_readf k (some f)).ret = (f.headD 0 : Int) ∧
    (otelnet_kermit_readf k (some f)).k.zinptr = 1 ∧
    (otelnet_kermit_readf k (some f)).k.zincnt = ((min k.zinlen f.length : Nat) : Int) - 1 ∧
    (otelnet_kermit_readf k (some f)).k.zinbuf = f.take (min k.zinlen f.length) := by
  obtain ⟨a, t, rfl⟩ := List.exists_cons_of_ne_nil hf
  have hmin : ¬(min k.zinlen (a :: t).length = 0) := by
    simp only [List.length_cons]; omega
  obtain ⟨m, hm⟩ := Nat.exists_eq_succ_of_ne_zero hmin
  refine ⟨by simp [otelnet_kermit_readf], by simp [otelnet_kermit_readf], ?_, ?_, ?_, ?_, ?_⟩
  · intro p q
    simp only [otelnet_kermit_readf]
  · simp only [otelnet_kermit_readf]
    rw [if_neg hmin, hm, List.take_succ_cons]
    simp
  · simp only [otelnet_kermit_readf]
    rw [if_neg hmin]
  · simp only [otelnet_kermit_readf]
    rw [if_neg hmin]
  · simp only [otelnet_kermit_readf]
    rw [if_neg hmin]

/-- C5 witness. -/
theorem readf_contract_witness :
    (otelnet_kermit_readf ⟨[9, 9], 2, 7, 0⟩ (some [])).ret = -1 ∧
    (otelnet_kermit_readf ⟨[9, 9], 2, 7, 0⟩ (some [65, 66, 67])).ret = 65 := by
  have h := readf_contract ⟨[9, 9], 2, 7, 0⟩ [65, 66, 67] (by decide) (by decide)
  exact ⟨h.1, h.2.2.2.1.trans (by decide)⟩

/-- C6: the engine's `closef` callback deletes a partially-received
file only in receive mode with close status 'D' and `ikeep = 0`; a
receive-side close (`discard = 2`) with status 'D', `ikeep = 0`, an
open file and a recorded filename does delete; `ikeep ≠ 0` retains the
file; status 'B' (EOT) or 'Z' (EOF) never deletes. -/
theorem closef_delete_policy (ctx : ClosefCtx) (ikeep status : Nat) (discard : Int) :
    ((otelnet_kermit_closef ctx ikeep status discard).deleted = true →
        ctx.isSending = false ∧ status = 68 ∧ ikeep = 0) ∧
    (ctx.fileOpen = true → ctx.isSending = false → ctx.currentFilename ≠ [] →
        (otelnet_kermit_closef ctx 0 68 2).deleted = true) ∧
    (ikeep ≠ 0 → (otelnet_kermit_closef ctx ikeep status discard).deleted = false) ∧
    (status = 66 ∨ status = 90 →
        (otelnet_kermit_closef ctx ikeep status discard).deleted = false) := by
  refine ⟨?_, ?_, ?_, ?_⟩
  · intro h
    by_cases hopen : ctx.fileOpen
    · simp only [otelnet_kermit_closef, hopen, not_true_eq_false, if_false,
        decide_eq_true_eq] at h
      exact ⟨by simpa using h.2.1, h.2.2.1, h.2.2.2.1⟩
    · simp [otelnet_kermit_closef, hopen] at h
  · intro hopen hrecv hfn
    simp [otelnet_kermit_closef, hopen, hrecv, hfn]
  · intro hk
    by_cases hopen : ctx.fileOpen <;>
      simp [otelnet_kermit_closef, hopen, hk]
  · intro hs
    by_cases hopen : ctx.fileOpen <;>
      rcases hs with hs | hs <;>
        simp [otelnet_kermit_closef, hopen, hs]

/-- C6 witness. -/
theorem closef_delete_policy_witness :
    (otelnet_kermit_closef ⟨true, false, [97]⟩ 0 68 2).deleted = true ∧
    (otelnet_kermit_closef ⟨true, false, [97]⟩ 1 68 2).deleted = false ∧
    (otelnet_kermit_closef ⟨true, false, [97]⟩ 0 66 2).deleted = false := by
  refine ⟨(closef_delete_policy ⟨true, false, [97]⟩ 0 68 2).2.1 rfl rfl (by decide),
    (closef_delete_policy ⟨true, false, [97]⟩ 1 68 2).2.2.1 (by decide),
    (closef_delete_policy ⟨true, false, [97]⟩ 0 66 2).2.2.2 (Or.inl rfl)⟩

/-- C4: in the Kermit protocol loops the consecutive-NAK counter is
capped at 10 and the consecutive-timeout counter at 5: every continuing
iteration keeps both counters under their caps, the 10th consecutive
NAK aborts with the user-visible `ERROR_GENERAL`
("Max retries (10 NAKs) exceeded"), the 5th consecutive timeout aborts
with `ERROR_TIMEOUT`, and a successful data exchange resets both
counters to zero. -/
theorem kermit_retry_caps (c : RetryCtx)
    (hn : c.consecutiveNaks < 10) (ht : c.consecutiveTimeouts < 5) :
    (∀ e c', kermitLoopStep c e = .cont c' →
        c'.consecutiveNaks < 10 ∧ c'.consecutiveTimeouts < 5) ∧
    (c.consecutiveNaks = 9 →
        ∀ okp, kermitLoopStep c (.pkt true okp) = .abort ERROR_GENERAL) ∧
    (c.consecutiveTimeouts = 4 → kermitLoopStep c .timeout = .abort ERROR_TIMEOUT) ∧
    kermitLoopStep c (.pkt false true) = .cont ⟨0, 0⟩ := by
  refine ⟨?_, ?_, ?_, by simp [kermitLoopStep]⟩
  · intro e c' h
    cases e with
    | fatal => simp [kermitLoopStep] at h
    | timeout =>
      simp only [kermitLoopStep] at h
      split at h
      · exact absurd h (by simp)
      · rename_i hlt
        cases LoopStep.cont.injEq .. ▸ h
        constructor <;> simp_all <;> omega
    | pkt nakOut okProgress =>
      simp only [kermitLoopStep] at h
      split at h
      · split at h
        · exact absurd h (by simp)
        · rename_i hlt
          cases LoopStep.cont.injEq .. ▸ h
          constructor <;> simp_all <;> omega
      · split at h
        · cases LoopStep.cont.injEq .. ▸ h
          constructor <;> simp
        · cases LoopStep.cont.injEq .. ▸ h
          exact ⟨hn, ht⟩
  · intro h9 okp
    simp [kermitLoopStep, h9]
  · intro h4
    simp [kermitLoopStep, h4]

/-- C4 witness. -/
theorem kermit_retry_caps_witness :
    kermitLoopStep ⟨9, 4⟩ (.pkt true false) = .abort ERROR_GENERAL ∧
    kermitLoopStep ⟨9, 4⟩ .timeout = .abort ERROR_TIMEOUT ∧
    kermitLoopStep ⟨9, 4⟩ (.pkt false true) = .cont ⟨0, 0⟩ := by
  have h := kermit_retry_caps ⟨9, 4⟩ (by decide) (by decide)
  exact ⟨h.2.1 rfl false, h.2.2.1 rfl, h.2.2.2⟩

/-- C10: the binary-mode unescaper carries no state between calls — a
chunk ending in a single unpaired IAC has that 0xFF copied to the
output unchanged, so a doubled IAC split across two reads decodes to
two 0xFF bytes, not one (each half passes through on its own, while the
same bytes in one chunk decode to a single 0xFF). -/
theorem binary_unescape_no_carry (l : List Nat) (outputSize : Nat)
    (hfree : ∀ b ∈ l, b ≠ TELNET_IAC) (hroom : l.length + 1 ≤ outputSize) :
    binary_mode_unescape (l ++ [TELNET_IAC]) outputSize = .ok (l ++ [TELNET_IAC]) ∧
    binary_mode_unescape [TELNET_IAC] 188 = .ok [TELNET_IAC] ∧
    binary_mode_unescape [TELNET_IAC, TELNET_IAC] 188 = .ok [TELNET_IAC] ∧
    [TELNET_IAC] ++ [TELNET_IAC] ≠ [TELNET_IAC] := by
  refine ⟨?_, by decide, by decide, by decide⟩
  unfold binary_mode_unescape
  rw [bmUnescapeAux_passthrough outputSize l [] hfree
    (by simp only [List.length_nil, Nat.zero_add]; omega)]
  rw [List.nil_append, bmUnescapeAux.eq_def]
  simp [show ¬(l.length + 1 > outputSize) from by omega]

/-- C10 witness. -/
theorem binary_unescape_no_carry_witness :
    binary_mode_unescape [97, 255] 188 = .ok [97, 255] := by
  exact (binary_unescape_no_carry [97] 188 (by decide) (by decide)).1

/-- C1 counterexample: the raw chunk `61 FF FB 00` contains an IAC
(0xFF) followed by the non-IAC byte 0xFB, yet `binary_mode_unescape`
silently skips the `IAC WILL BINARY` triple instead of signalling
abort, and `rxd` returns the decoded byte count 1, not -1. -/
theorem rxd_iac_pair_counterexample :
    binary_mode_unescape [97, 255, 251, 0] 188 = .ok [97] ∧
    otelnet_kermit_rxd [] [97, 255, 251, 0] 94 = ⟨1, [97], []⟩ ∧
    (251 : Nat) ≠ 255 := by decide

/-- C1 (amended): during a Kermit transfer the binary-mode unescape
aborts on an IAC byte followed by a non-IAC byte *except* when the pair
opens an `IAC WILL/WONT/DO/DONT BINARY` negotiation triple, which is
silently skipped (a doubled IAC is data, a lone trailing IAC passes
through).  Whenever the unescape signals abort, the `rxd` callback
returns -1, and the protocol loop then aborts the transfer with a
connection error — the binary-mode-loss case never reports success. -/
theorem rxd_binary_mode_loss (l : List Nat) (c2 : Nat) (rest raw : List Nat)
    (outputSize len : Nat) (st : RetryCtx)
    (hfree : ∀ b ∈ l, b ≠ TELNET_IAC) (hroom : l.length ≤ outputSize)
    (hne : c2 ≠ TELNET_IAC)
    (hnb : ¬((c2 = TELNET_WILL ∨ c2 = TELNET_DO ∨ c2 = TELNET_WONT ∨ c2 = TELNET_DONT) ∧
        rest.headD 0 = TELOPT_BINARY ∧ rest ≠ [])) :
    binary_mode_unescape (l ++ TELNET_IAC :: c2 :: rest) outputSize = .telnetCmd ∧
    (binary_mode_unescape raw (2 * P_PKTLEN) = .telnetCmd →
        otelnet_kermit_rxd [] raw len = ⟨-1, [], []⟩) ∧
    kermitLoopStep st .fatal = .abort ERROR_CONNECTION ∧
    ERROR_CONNECTION ≠ SUCCESS := by
  refine ⟨?_, ?_, by simp [kermitLoopStep], by decide⟩
  · unfold binary_mode_unescape
    rw [bmUnescapeAux_passthrough outputSize l [] hfree
      (by simp only [List.length_nil, Nat.zero_add]; omega),
      List.nil_append, bmUnescapeAux.eq_def]
    simp only [if_pos rfl, hne, if_false]
    by_cases hcmd : c2 = TELNET_WILL ∨ c2 = TELNET_DO ∨ c2 = TELNET_WONT ∨ c2 = TELNET_DONT
    · cases rest with
      | nil => simp [hcmd]
      | cons d r3 =>
        have hd : d ≠ TELOPT_BINARY := by
          intro h
          exact hnb ⟨hcmd, by simp [h], by simp⟩
        simp [hcmd, hd]
    · simp [hcmd]
  · intro h
    simp [otelnet_kermit_rxd, rxdSocketBranch, h]

/-- C1 witness. -/
theorem rxd_binary_mode_loss_witness :
    binary_mode_unescape [97, 255, 244, 98] 188 = .telnetCmd ∧
    otelnet_kermit_rxd [] [97, 255, 244, 98] 94 = ⟨-1, [], []⟩ ∧
    kermitLoopStep ⟨0, 0⟩ .fatal = .abort ERROR_CONNECTION := by
  have h := rxd_binary_mode_loss [97] 244 [98] [97, 255, 244, 98] 188 94 ⟨0, 0⟩
    (by decide) (by decide) (by decide) (by decide)
  exact ⟨h.1, h.2.1 h.1, h.2.2.1⟩

/-- C2 counterexample: option 5 (STATUS) is not in the supported set,
and the negotiator replies `IAC DONT 5` to *every* `WILL 5` — after
receiving WILL 5 twice in succession it has responded twice, so the
universally quantified "responds at most once" fails. -/
theorem negotiate_duplicate_counterexample :
    (telnet_handle_negotiate telnet_init TELNET_WILL 5).2 = [255, 254, 5] ∧
    (telnet_handle_negotiate
        (telnet_handle_negotiate telnet_init TELNET_WILL 5).1 TELNET_WILL 5).2 =
      [255, 254, 5] := by decide

/-- C2 (amended): for every *supported* option the negotiator follows
the RFC 855 state-change discipline — a second WILL (or DO) for the
same option draws no bytes on the wire; an *unsupported* option is
refused with DONT on every receipt.  In particular `FF FB 01`
(WILL ECHO) twice draws `FF FD 01` (DO ECHO) exactly once, the second
WILL producing no bytes. -/
theorem negotiate_state_change_discipline (tn : TelnetState) (o : Nat) :
    (supportedRemoteOption o →
        (telnet_handle_negotiate (telnet_handle_negotiate tn TELNET_WILL o).1
          TELNET_WILL o).2 = []) ∧
    (supportedLocalOption o →
        (telnet_handle_negotiate (telnet_handle_negotiate tn TELNET_DO o).1
          TELNET_DO o).2 = []) ∧
    (¬supportedRemoteOption o →
        (telnet_handle_negotiate tn TELNET_WILL o).2 = [TELNET_IAC, TELNET_DONT, o]) ∧
    (telnet_handle_negotiate telnet_init TELNET_WILL TELOPT_ECHO).2 = [255, 253, 1] ∧
    (telnet_handle_negotiate
        (telnet_handle_negotiate telnet_init TELNET_WILL TELOPT_ECHO).1
        TELNET_WILL TELOPT_ECHO).2 = [] := by
  refine ⟨?_, ?_, ?_, by decide, by decide⟩
  · intro hsup
    by_cases hmem : o ∈ tn.remoteOptions
    · simp [telnet_handle_negotiate, hsup, hmem, telnet_update_mode]
    · simp [telnet_handle_negotiate, hsup, hmem, telnet_update_mode,
        insertOpt_mem o tn.remoteOptions]
  · intro hsup
    by_cases hmem : o ∈ tn.localOptions
    · simp [telnet_handle_negotiate, hsup, hmem, telnet_update_mode,
        show ¬(TELNET_DO = TELNET_WILL) from by decide,
        show ¬(TELNET_DO = TELNET_WONT) from by decide]
    · simp [telnet_handle_negotiate, hsup, hmem, telnet_update_mode,
        insertOpt_mem o tn.localOptions,
        show ¬(TELNET_DO = TELNET_WILL) from by decide,
        show ¬(TELNET_DO = TELNET_WONT) from by decide]
  · intro hns
    simp [telnet_handle_negotiate, telnet_send_negotiate, hns]

/-- C2 witness. -/
theorem negotiate_state_change_discipline_witness :
    (telnet_handle_negotiate (telnet_handle_negotiate telnet_init TELNET_WILL 1).1
        TELNET_WILL 1).2 = [] ∧
    (telnet_handle_negotiate telnet_init TELNET_WILL 5).2 = [255, 254, 5] := by
  refine ⟨(negotiate_state_change_discipline telnet_init 1).1 (by decide), ?_⟩
  have h := (negotiate_state_change_discipline telnet_init 5).2.2.1 (by decide)
  simpa using h

/-- C3 counterexample: the non-binary stream `0D 0D` refutes the
claim's "any other byte is reprocessed as if it had arrived in DATA".
The source emits the second CR literally and returns to DATA
(`out = 0D 0D`), while reprocessing the byte in DATA would re-enter CR
disambiguation (`out = 0D`, state SEENCR). -/
theorem seencr_reprocess_counterexample :
    (telnet_process_input telnet_init [13, 13] 4096).out = [13, 13] ∧
    (telnet_process_input telnet_init [13, 13] 4096).tn.state = .data ∧
    (telnet_process_input_crReprocess telnet_init [13, 13] 4096).out = [13] ∧
    (telnet_process_input_crReprocess telnet_init [13, 13] 4096).tn.state = .seencr := by
  decide

/-- C3 (amended): in SEENCR (entered by CR while the remote side is not
binary), NUL emits a lone CR, LF emits CR LF, IAC emits CR and
continues with IAC processing, and any other byte emits CR followed by
that byte *emitted literally* — which coincides with reprocessing the
byte in DATA for every byte except CR itself.  The three seed streams
behave as stated: `61 0D 00 62 → 61 0D 62`, `61 0D 0A 62 →
61 0D 0A 62`, and `61 0D FF FB 03` emits `61 0D` and delivers the SGA
negotiation event. -/
theorem seencr_behavior (st : FramerRun) (outputSize c : Nat)
    (hst : st.tn.state = .seencr) (hroom : st.out.length + 2 ≤ outputSize) :
    telnet_process_byte outputSize st 0 =
      { st with tn := { st.tn with state := .data }, out := st.out ++ [13] } ∧
    telnet_process_byte outputSize st 10 =
      { st with tn := { st.tn with state := .data }, out := st.out ++ [13, 10] } ∧
    telnet_process_byte outputSize st TELNET_IAC =
      { st with tn := { st.tn with state := .iac }, out := st.out ++ [13] } ∧
    (c ≠ 0 → c ≠ 10 → c ≠ TELNET_IAC →
      telnet_process_byte outputSize st c =
        { st with tn := { st.tn with state := .data }, out := st.out ++ [13, c] }) ∧
    (c ≠ 13 →
      telnet_process_byte_crReprocess outputSize st c =
        telnet_process_byte outputSize st c) ∧
    (telnet_process_input telnet_init [97, 13, 0, 98] 4096).out = [97, 13, 98] ∧
    (telnet_process_input telnet_init [97, 13, 10, 98] 4096).out = [97, 13, 10, 98] ∧
    (telnet_process_input telnet_init [97, 13, 255, 251, 3] 4096).out = [97, 13] ∧
    (telnet_process_input telnet_init [97, 13, 255, 251, 3] 4096).events =
      [.negotiate TELNET_WILL TELOPT_SGA] := by
  have h1 : st.out.length < outputSize := by omega
  have h2 : st.out.length + 1 < outputSize := by omega
  refine ⟨?_, ?_, ?_, ?_, ?_, by decide, by decide, by decide, by decide⟩
  · simp [telnet_process_byte, hst, emitByte, h1]
  · simp [telnet_process_byte, hst, emitByte, h1, h2]
  · simp [telnet_process_byte, hst, emitByte, h1,
      show TELNET_IAC ≠ 0 from by decide, show TELNET_IAC ≠ 10 from by decide]
  · intro hc0 hc10 hciac
    have h1' : (st.out ++ [13]).length < outputSize := by
      simp only [List.length_append, List.length_cons, List.length_nil]; omega
    simp [telnet_process_byte, hst, hc0, hc10, hciac, emitByte, h1, h1', h2]
  · intro hc13
    by_cases hc0 : c = 0
    · simp [telnet_process_byte_crReprocess, hst, hc0]
    · by_cases hc10 : c = 10
      · simp [telnet_process_byte_crReprocess, hst, hc10]
      · by_cases hciac : c = TELNET_IAC
        · simp [telnet_process_byte_crReprocess, hst, hciac]
        · simp [telnet_process_byte_crReprocess, telnet_process_byte, hst,
            hc0, hc10, hciac, hc13]

/-- C3 witness. -/
theorem seencr_behavior_witness :
    telnet_process_byte 4096 ⟨{ telnet_init with state := .seencr }, [97], [], []⟩ 98 =
      ⟨{ telnet_init with state := .data }, [97, 13, 98], [], []⟩ := by
  have h := seencr_behavior ⟨{ telnet_init with state := .seencr }, [97], [], []⟩
    4096 98 rfl (by decide)
  exact (h.2.2.2.1 (by decide) (by decide) (by decide)).trans (by decide)

/-- C7 counterexample: the clean 3-byte chunk `23 20 53` (LEN = 35 ∈
[35,126], SEQ = 32 and TYPE = 'S' printable) has a valid-looking Kermit
header in its first three bytes, yet the drain's header test requires
at least four bytes, so the chunk is discarded as server chatter
instead of being saved as an early packet. -/
theorem drain_short_header_counterexample :
    drain_is_kermit_packet [35, 32, 83] = false ∧
    drainStep [] [35, 32, 83] = ([], false) ∧
    (35 ≤ 35 ∧ 35 ≤ 126 ∧ 32 ≤ 32 ∧ 32 ≤ 126 ∧ 32 ≤ 83 ∧ 83 ≤ 126) := by decide

/-- C7 (amended): the negotiation drain runs for 3 iterations of a
100 ms select (300 ms) or 2 iterations (200 ms) when already
bidirectional BINARY.  A clean chunk beginning with SOH is appended to
the pending-bytes queue (when it fits) and the drain stops; a chunk of
*at least four bytes* whose first three bytes look like a valid Kermit
header (LEN ∈ [35,126], SEQ and TYPE printable) is likewise saved and
stops the drain; any other chunk is discarded as server chatter and
draining continues. -/
theorem drain_classification (pending clean : List Nat) (alreadyBinary : Bool)
    (n : Nat) (rest : List (List Nat))
    (hcap : pending.length + clean.length ≤ PENDING_DATA_SIZE) :
    drainBudgetMs alreadyBinary = (if alreadyBinary then 200 else 300) ∧
    (clean.headD 0 = SOH → drainStep pending clean = (pending ++ clean, true)) ∧
    (4 ≤ clean.length → 35 ≤ clean.headD 0 → clean.headD 0 ≤ 126 →
        32 ≤ clean.getD 1 0 → clean.getD 1 0 ≤ 126 →
        32 ≤ clean.getD 2 0 → clean.getD 2 0 ≤ 126 →
        drainStep pending clean = (pending ++ clean, true)) ∧
    (drain_is_kermit_packet clean = false →
        drainStep pending clean = (pending, false)) ∧
    (drain_is_kermit_packet clean = true → clean ≠ [] →
        drainLoop (n + 1) pending (clean :: rest) = (drainStep pending clean).1) := by
  refine ⟨by cases alreadyBinary <;> rfl, ?_, ?_, ?_, ?_⟩
  · intro hsoh
    have hne : clean ≠ [] := by
      intro h; rw [h] at hsoh; exact absurd hsoh (by decide)
    have hlen : ¬(clean.length = 0) := by simpa using hne
    have hk : drain_is_kermit_packet clean = true := by
      unfold drain_is_kermit_packet
      rw [if_pos hsoh]
    simp [drainStep, hlen, hk, hcap]
  · intro h4 hl1 hl2 hs1 hs2 ht1 ht2
    have hlen : ¬(clean.length = 0) := by omega
    have hnsoh : ¬(clean.headD 0 = SOH) := by
      simp only [SOH]; omega
    have hk : drain_is_kermit_packet clean = true := by
      simp only [drain_is_kermit_packet, hnsoh, if_false]
      rw [if_pos ⟨h4, ⟨hl1, hl2⟩, ⟨hs1, hs2⟩, ⟨ht1, ht2⟩⟩]
    simp [drainStep, hlen, hk, hcap]
  · intro hk
    by_cases hlen : clean.length = 0
    · simp [drainStep, hlen]
    · simp [drainStep, hlen, hk]
  · intro hk hne
    have hlen : ¬(clean.length = 0) := by simpa using hne
    simp [drainLoop, drainStep, hlen, hk, hcap]

/-- C7 witness. -/
theorem drain_classification_witness :
    drainStep [] [1, 38, 32, 83] = ([1, 38, 32, 83], true) ∧
    drainStep [] [104, 105] = ([], false) ∧
    drainBudgetMs true = 200 ∧ drainBudgetMs false = 300 := by
  have h1 := drain_classification [] [1, 38, 32, 83] true 2 [] (by decide)
  have h2 := drain_classification [] [104, 105] false 2 [] (by decide)
  exact ⟨h1.2.1 (by decide), h2.2.2.2.1 (by decide), h1.1, h2.1⟩

/-- C8 counterexample: the pending-queue bytes `23 20 59 23 0D`
(LEN SEQ TYPE CHECK EOM) are returned to the engine with the trailing
EOM byte 0x0D intact — the pending branch of `rxd` never strips a
trailing EOM, refuting "the data it returns … has a single trailing EOM
byte stripped if present". -/
theorem rxd_pending_eom_counterexample :
    otelnet_kermit_rxd [35, 32, 89, 35, 13] [54] 94 = ⟨5, [35, 32, 89, 35, 13], []⟩ ∧
    ([35, 32, 89, 35, 13] : List Nat).getLastD 0 = 13 := by decide

/-- C8 (amended): every `rxd` invocation serves the pending-bytes queue
before reading the socket (with a nonempty queue the socket bytes are
never consulted); a leading SOH is stripped on both paths; a single
trailing EOM (0x0D or 0x0A) is stripped only on the socket path — data
from the pending queue is returned with any trailing EOM intact. -/
theorem rxd_pending_first (pending raw raw' : List Nat) (len : Nat) (d : List Nat)
    (hp : pending ≠ []) :
    otelnet_kermit_rxd pending raw len = rxdPendingBranch pending len ∧
    otelnet_kermit_rxd pending raw len = otelnet_kermit_rxd pending raw' len ∧
    (pending.headD 0 = SOH →
        (rxdPendingBranch pending len).data =
          (pending.take (min pending.length len)).tail ∨
        (rxdPendingBranch pending len).ret = 0) ∧
    (binary_mode_unescape raw (2 * P_PKTLEN) = .ok d → d ≠ [] →
      ¬((len : Int) + 8 < ((stripTrailingEOM (stripLeadingSOH d)).length : Int)) →
        rxdSocketBranch raw len = some (stripTrailingEOM (stripLeadingSOH d))) ∧
    (∀ t : List Nat, stripLeadingSOH (SOH :: t) = t) ∧
    (∀ t : List Nat, stripTrailingEOM (t ++ [13]) = t) := by
  have hplen : pending.length > 0 := List.length_pos.mpr hp
  refine ⟨by simp [otelnet_kermit_rxd, hplen], by simp [otelnet_kermit_rxd, hplen],
    ?_, ?_, ?_, ?_⟩
  · intro hsoh
    obtain ⟨a, t, rfl⟩ := List.exists_cons_of_ne_nil hp
    have ha : a = SOH := by simpa using hsoh
    subst ha
    cases len with
    | zero => left; simp [rxdPendingBranch]
    | succ m =>
      have hmin : (SOH :: t).length ⊓ (m + 1) = t.length ⊓ m + 1 := by
        simp only [List.length_cons]; omega
      have hpos : t.length ⊓ m + 1 > 0 := by omega
      by_cases hchk : 4 ≤ t.length ⊓ m ∧
          ((t.take (t.length ⊓ m)).headD 0 < 35 ∨ 126 < (t.take (t.length ⊓ m)).headD 0)
      · right
        simp only [rxdPendingBranch, hmin, List.take_succ_cons, List.headD_cons, hpos,
          true_and, and_true, if_true, Nat.add_sub_cancel, List.tail_cons]
        rw [if_pos hchk]
      · left
        simp only [rxdPendingBranch, hmin, List.take_succ_cons, List.headD_cons, hpos,
          true_and, and_true, if_true, Nat.add_sub_cancel, List.tail_cons]
        rw [if_neg hchk]
  · intro hok hne hfit
    simp [rxdSocketBranch, hok, hne, hfit]
  · intro t
    simp [stripLeadingSOH]
  · intro t
    have hne : t ++ [13] ≠ [] := by simp
    simp [stripTrailingEOM, hne]

/-- C8 witness. -/
theorem rxd_pending_first_witness :
    otelnet_kermit_rxd [35, 32, 89, 35] [54] 94 = rxdPendingBranch [35, 32, 89, 35] 94 ∧
    stripLeadingSOH (SOH :: [35, 32, 89]) = [35, 32, 89] ∧
    stripTrailingEOM ([35, 32, 89] ++ [13]) = [35, 32, 89] := by
  have h := rxd_pending_first [35, 32, 89, 35] [54] [] 94 [] (by decide)
  exact ⟨h.1, h.2.2.2.2.1 [35, 32, 89], h.2.2.2.2.2 [35, 32, 89]⟩

/-- C9 counterexample: with the XMODEM detector holding repeat count 2,
dispatching an external ZMODEM transfer leaves all detectors enabled
with their counters intact (`transfer_execute_modem` never touches
them), and even the Kermit entry path leaves the XMODEM text window
uncleared — both refute "all three detectors are disabled and their
counters and windows are reset" for every active transfer. -/
theorem detectors_during_transfer_counterexample :
    (detectorsDuringTransfer
        ⟨⟨true, [42]⟩, ⟨true, [67, 67], 67, 2, 5, 6⟩, ⟨true, [], 0, 0, 0⟩⟩
        .zmodemSend).x.enabled = true ∧
    (detectorsDuringTransfer
        ⟨⟨true, [42]⟩, ⟨true, [67, 67], 67, 2, 5, 6⟩, ⟨true, [], 0, 0, 0⟩⟩
        .zmodemSend).x.repeatCount = 2 ∧
    (detectorsDuringTransfer
        ⟨⟨true, [42]⟩, ⟨true, [67, 67], 67, 2, 5, 6⟩, ⟨true, [], 0, 0, 0⟩⟩
        .kermitSend).x.buffer = [67, 67] := by decide

/-- C9 (amended): entering an embedded Kermit transfer disables all
three detectors, clearing the ZMODEM window and the XMODEM/YMODEM
trigger counters and timestamps (the XMODEM/YMODEM text windows are
left as they were); the external ZMODEM/XMODEM/YMODEM relay leaves the
detector state untouched, but no detector is consulted while the
application mode is TRANSFER or a transfer is active; after every
transfer all three detectors are re-initialised with fresh counters and
windows. -/
theorem detectors_transfer_discipline (d : Detectors) (p : TransferProtocol)
    (ae ta : Bool) (m : OtelnetMode) (hm : m = .transfer) :
    ((kermitEntryDetectors d).z = ⟨false, []⟩ ∧
     (kermitEntryDetectors d).x = ⟨false, d.x.buffer, 0, 0, 0, 0⟩ ∧
     (kermitEntryDetectors d).y = ⟨false, d.y.buffer, 0, 0, 0⟩) ∧
    (p ≠ .kermitSend → p ≠ .kermitRecv → detectorsDuringTransfer d p = d) ∧
    autoDetectGate ae m ta = false ∧
    autoDetectGate ae .client true = false ∧
    detectorsAfterTransfer = ⟨⟨true, []⟩, ⟨true, [], 0, 0, 0, 0⟩, ⟨true, [], 0, 0, 0⟩⟩ := by
  refine ⟨⟨rfl, rfl, rfl⟩, ?_, ?_, by simp [autoDetectGate], rfl⟩
  · intro hs hr
    cases p <;> first | rfl | exact absurd rfl hs | exact absurd rfl hr
  · subst hm
    simp [autoDetectGate]

/-- C9 witness. -/
theorem detectors_transfer_discipline_witness :
    detectorsDuringTransfer
        ⟨⟨true, [42]⟩, ⟨true, [67], 67, 2, 5, 6⟩, ⟨true, [], 1, 2, 3⟩⟩ .ymodemRecv =
      ⟨⟨true, [42]⟩, ⟨true, [67], 67, 2, 5, 6⟩, ⟨true, [], 1, 2, 3⟩⟩ ∧
    autoDetectGate true .transfer false = false := by
  have h := detectors_transfer_discipline
    ⟨⟨true, [42]⟩, ⟨true, [67], 67, 2, 5, 6⟩, ⟨true, [], 1, 2, 3⟩⟩ .ymodemRecv
    true false .transfer rfl
  exact ⟨h.2.1 (by decide) (by decide), h.2.2.1⟩

end Otelnet
